import Mathlib

/-!
# Cityscope backend — verification of the post interaction and feed engine

Shallow embedding of the Cityscope backend's core (the Post model with its
instance methods and save middleware, and the post service: createPost,
togglePostLike, togglePostDislike, getPostsFeed, getUserCityFeed).

Modelling conventions:
* MongoDB ObjectIds are opaque identifiers, modelled as `Nat`
  (`ObjectId.equals` / `toString`-keyed set membership both become equality).
* The document store is an association list from id to document; `findById`
  is the first match, `save` rewrites the entry in place (or appends a new
  one), mirroring per-document atomic read-modify-write.
* JavaScript `String.prototype.trim` is modelled by `jsTrim` over the
  character list (the source strings involved are plain ASCII).
* Timestamps: `createdAt` is carried explicitly (it drives feed sorting);
  `updatedAt` is maintained opaquely by mongoose `timestamps: true` and is
  not represented.
-/

/-- JS falsy-whitespace characters relevant to `trim` (space, tab, LF, CR). -/
def isJsWhitespace (c : Char) : Bool :=
  c == ' ' || c == '\t' || c == '\n' || c == '\r'

/-- JavaScript `String.prototype.trim`, over the character list. -/
def jsTrim (s : String) : String :=
  ⟨(((s.data).dropWhile isJsWhitespace).reverse.dropWhile isJsWhitespace).reverse⟩

/-- JavaScript `String.prototype.toLowerCase` (ASCII-adequate model). -/
def jsLower (s : String) : String := ⟨s.data.map Char.toLower⟩

/-- Does `l` start with `pre`? (helper for the substring test). -/
def charsStartWith : List Char → List Char → Bool
  | [], _ => true
  | _ :: _, [] => false
  | a :: as, b :: bs => a == b && charsStartWith as bs

/-- Contiguous-substring test on character lists (helper for `$regex` with a
literal pattern, which matches when the pattern occurs as a substring). -/
def containsSub (needle : List Char) : List Char → Bool
  | [] => charsStartWith needle []
  | c :: t => charsStartWith needle (c :: t) || containsSub needle t

/-- Model of `{ content: { $regex: search.trim(), $options: 'i' } }` for a literal
search string: case-insensitive substring match. -/
def regexMatchesCI (pattern content : String) : Bool :=
  containsSub (jsLower pattern).data (jsLower content).data

/-- From `src/types/post.types.ts` — `enum PostType`. -/
inductive PostType where
  | recommend
  | help
  | update
  | event
deriving DecidableEq, Repr

/-- From `src/types/post.types.ts` — `sortBy?: 'newest' | 'oldest' | 'mostLiked'`. -/
inductive SortOrder where
  | newest
  | oldest
  | mostLiked
deriving DecidableEq, Repr

/-- The `replySchema` — an embedded reply.  `rid` is the Mongo-assigned `_id`
(optional: an embedded document may lack one, and `removeReply` guards with
`reply._id?`). -/
structure Reply where
  rid : Option Nat
  content : String
  author : Nat
deriving DecidableEq, Repr

/-- The `postSchema` — a post document. -/
structure Post where
  content : String
  postType : PostType
  image : Option String
  author : Nat
  city : String
  likes : List Nat
  dislikes : List Nat
  replies : List Reply
  isActive : Bool
  createdAt : Nat
deriving DecidableEq, Repr

/-- The `userSchema` — a user document (fields relevant to the core). -/
structure User where
  email : String
  firstName : String
  lastName : String
  city : String
  bio : String
  isVerified : Bool
  postsCount : Nat
  isActive : Bool
deriving DecidableEq, Repr

/-- The document store: `users` and `posts` collections keyed by ObjectId. -/
structure DB where
  users : List (Nat × User)
  posts : List (Nat × Post)
deriving DecidableEq, Repr

/-- Model of `User.findById`. -/
def findUser (db : DB) (uid : Nat) : Option User :=
  (db.users.find? (fun e => decide (e.1 = uid))).map Prod.snd

/-- Model of `Post.findById`. -/
def findPost (db : DB) (pid : Nat) : Option Post :=
  (db.posts.find? (fun e => decide (e.1 = pid))).map Prod.snd

/-- Rewrite the stored document with id `pid` in place. -/
def updatePost (db : DB) (pid : Nat) (p : Post) : DB :=
  { db with posts := db.posts.map (fun e => if e.1 = pid then (pid, p) else e) }

/-- Write a document: update in place when the id exists, insert otherwise. -/
def persistPost (db : DB) (pid : Nat) (p : Post) : DB :=
  if (db.posts.find? (fun e => decide (e.1 = pid))).isSome then
    updatePost db pid p
  else
    { db with posts := db.posts ++ [(pid, p)] }

/-- Model of `User.findByIdAndUpdate(author, { $inc: { postsCount: 1 } })`. -/
def incPostsCount (db : DB) (uid : Nat) : DB :=
  { db with
    users := db.users.map (fun e =>
      if e.1 = uid then (e.1, { e.2 with postsCount := e.2.postsCount + 1 }) else e) }

/-- Model of `postSchema.methods.isLikedBy` — `this.likes.some(id => id.equals(userId))`. -/
def isLikedBy (p : Post) (u : Nat) : Bool := decide (u ∈ p.likes)

/-- Model of `postSchema.methods.isDislikedBy`. -/
def isDislikedBy (p : Post) (u : Nat) : Bool := decide (u ∈ p.dislikes)

/-- Model of `postSchema.methods.addLike` up to (but not including) `this.save()`:
remove from dislikes, then push onto likes when not already present. -/
def addLike (p : Post) (u : Nat) : Post :=
  let p1 := { p with dislikes := p.dislikes.filter (fun id => decide (id ≠ u)) }
  if decide (u ∈ p1.likes) then p1 else { p1 with likes := p1.likes ++ [u] }

/-- Model of `postSchema.methods.removeLike` up to `this.save()`. -/
def removeLike (p : Post) (u : Nat) : Post :=
  { p with likes := p.likes.filter (fun id => decide (id ≠ u)) }

/-- Model of `postSchema.methods.addDislike` up to `this.save()`. -/
def addDislike (p : Post) (u : Nat) : Post :=
  let p1 := { p with likes := p.likes.filter (fun id => decide (id ≠ u)) }
  if decide (u ∈ p1.dislikes) then p1 else { p1 with dislikes := p1.dislikes ++ [u] }

/-- Model of `postSchema.methods.removeDislike` up to `this.save()`. -/
def removeDislike (p : Post) (u : Nat) : Post :=
  { p with dislikes := p.dislikes.filter (fun id => decide (id ≠ u)) }

/-- Model of `postSchema.methods.addReply` up to `this.save()`; Mongo assigns the
embedded `_id` at save time, so the model takes the reply with its id. -/
def addReply (p : Post) (r : Reply) : Post :=
  { p with replies := p.replies ++ [r] }

/-- Model of `postSchema.methods.removeReply` up to `this.save()` —
`this.replies.filter(reply => !reply._id?.equals(replyId))`; a reply without
an `_id` is kept (`undefined` is falsy, so the negation is true). -/
def removeReply (p : Post) (replyId : Nat) : Post :=
  { p with replies := p.replies.filter (fun r => decide (r.rid ≠ some replyId)) }

/-- Model of the `postSchema.pre('save')` hook — the consistency middleware: capture both id
sets, then drop from each list every id present in the other's captured set
(`toString`-keyed sets over ObjectIds, i.e. plain id equality here). -/
def preSaveFix (p : Post) : Post :=
  { p with
    likes := p.likes.filter (fun id => decide (id ∉ p.dislikes)),
    dislikes := p.dislikes.filter (fun id => decide (id ∉ p.likes)) }

/-- Model of the `postSchema.post('save')` hook — increments the author's `postsCount` when
`this.isNew` holds at post-hook time. -/
def postSaveHook (db : DB) (authorId : Nat) (isNewAtHook : Bool) : DB :=
  if isNewAtHook then incPostsCount db authorId else db

/-- Mongoose `document.save()`: run the `pre('save')` middleware, write the
document, then run the `post('save')` middleware.  Mongoose marks the
document as persisted (`isNew := false`) when the write completes, *before*
the `post('save')` hooks run, so the hook always observes `isNew = false`. -/
def savePost (db : DB) (pid : Nat) (p : Post) : DB × Post :=
  let saved := preSaveFix p
  ((postSaveHook (persistPost db pid saved) saved.author false), saved)

/-- The uniform service result shape (`PostResponse`): `success`, `message`,
optional `error`, and `data` carrying either a single post or a post list. -/
structure PostResponse where
  success : Bool
  message : String
  error : Option String := none
  post : Option Post := none
  posts : Option (List Post) := none
deriving DecidableEq, Repr

/-- From `src/types/post.types.ts` — `CreatePostRequest` (optional fields may be
absent from the request body). -/
structure CreatePostRequest where
  content : Option String := none
  postType : Option PostType := none
  image : Option String := none
  city : Option String := none
deriving DecidableEq, Repr

/-- From `src/types/post.types.ts` — `PostQueryParams` (all optional). -/
structure PostQueryParams where
  postType : Option PostType := none
  author : Option Nat := none
  city : Option String := none
  sortBy : Option SortOrder := none
  search : Option String := none
deriving DecidableEq, Repr

/-- Suffix test on character lists. -/
def charsEndWith (suffix l : List Char) : Bool :=
  charsStartWith suffix.reverse l.reverse

/-- The `postSchema.image` validator: `/^https?:\/\/.+\.(jpg|jpeg|png|gif|webp)$/i`
— case-insensitively, an http(s) URL with at least one character between the
protocol and a recognized image-file extension. -/
def imageUrlOk (url : String) : Bool :=
  let s := (jsLower url).data
  let protoLen : Nat := if charsStartWith "https://".data s then 8 else 7
  (charsStartWith "http://".data s || charsStartWith "https://".data s)
    && ["jpg", "jpeg", "png", "gif", "webp"].any (fun ext =>
          charsEndWith ('.' :: ext.data) s
            && protoLen + 1 + (1 + ext.data.length) ≤ s.length)

/-- Model of `createPost` (src/services/post.service.ts).  `newId` is the ObjectId
Mongo assigns to the inserted document, `now` its creation timestamp.  The
`!userId` falsy guard on the raw id string has no counterpart for opaque
`Nat` ids.  The mongoose schema validation that `newPost.save()` performs is
modelled here (the only document this service constructs): `city` is a
required path (`postData.city || undefined` drops an absent or empty city,
making the save fail validation), and a present `image` must satisfy the
image-URL validator; `content` min/max length is already guaranteed by the
service's own checks. -/
def createPost (db : DB) (userId : Nat) (pd : CreatePostRequest) (newId now : Nat) :
    DB × PostResponse :=
  match findUser db userId with
  | none =>
    (db, { success := false, message := "User not found",
           error := some "User does not exist" })
  | some user =>
    if !user.isActive then
      (db, { success := false, message := "Account is deactivated",
             error := some "Account status inactive" })
    else if jsTrim (pd.content.getD "") = "" then
      (db, { success := false, message := "Post content is required",
             error := some "Missing post content" })
    else
      match pd.postType with
      | none =>
        (db, { success := false, message := "Valid post type is required",
               error := some "Invalid post type" })
      | some pt =>
        if 280 < (jsTrim (pd.content.getD "")).length then
          (db, { success := false, message := "Post content cannot exceed 280 characters",
                 error := some "Content too long" })
        else
          let image : Option String :=
            match pd.image with
            | some s => if jsTrim s = "" then none else some (jsTrim s)
            | none => none
          let city : Option String :=
            match pd.city with
            | some c => if c = "" then none else some c
            | none => none
          match city with
          | none =>
            (db, { success := false, message := "Validation failed",
                   error := some "Path `city` is required." })
          | some cityVal =>
            if (match image with | some url => !imageUrlOk url | none => false) then
              (db, { success := false, message := "Validation failed",
                     error := some "Invalid image URL format" })
            else
              let newPost : Post :=
                { content := jsTrim (pd.content.getD ""), postType := pt,
                  image := image, author := userId, city := cityVal,
                  likes := [], dislikes := [], replies := [],
                  isActive := true, createdAt := now }
              let r := savePost db newId newPost
              (r.1, { success := true, message := "Post created successfully",
                      post := some r.2 })

/-- Model of `togglePostLike` (src/services/post.service.ts): fetch the post, reject
when missing or inactive, then `removeLike`/`addLike` according to
`isLikedBy`, each of which ends in `this.save()`. -/
def togglePostLike (db : DB) (postId userId : Nat) : DB × PostResponse :=
  match findPost db postId with
  | none =>
    (db, { success := false, message := "Post not found",
           error := some "Post does not exist" })
  | some post =>
    if !post.isActive then
      (db, { success := false, message := "Cannot like inactive post",
             error := some "Post inactive" })
    else
      let isLiked := isLikedBy post userId
      let updated := if isLiked then removeLike post userId else addLike post userId
      let r := savePost db postId updated
      (r.1, { success := true,
              message := if isLiked then "Post unliked successfully"
                         else "Post liked successfully",
              post := some r.2 })

/-- Model of `togglePostDislike` (src/services/post.service.ts) — the dislike twin. -/
def togglePostDislike (db : DB) (postId userId : Nat) : DB × PostResponse :=
  match findPost db postId with
  | none =>
    (db, { success := false, message := "Post not found",
           error := some "Post does not exist" })
  | some post =>
    if !post.isActive then
      (db, { success := false, message := "Cannot dislike inactive post",
             error := some "Post inactive" })
    else
      let isDisliked := isDislikedBy post userId
      let updated := if isDisliked then removeDislike post userId else addDislike post userId
      let r := savePost db postId updated
      (r.1, { success := true,
              message := if isDisliked then "Post undisliked successfully"
                         else "Post disliked successfully",
              post := some r.2 })

/-- The filter object `getPostsFeed` builds (always `isActive: true`, plus
the optional city / postType / author / content-regex constraints). -/
structure FeedFilter where
  city : Option String := none
  postType : Option PostType := none
  author : Option Nat := none
  search : Option String := none
deriving DecidableEq, Repr

/-- Filter construction in `getPostsFeed`: `city`/`search` contribute only
when they trim to a nonempty string (and are used trimmed); `postType` is
enum-checked (statically true here); `author` is used as given. -/
def buildFilter (qp : PostQueryParams) : FeedFilter :=
  { city := match qp.city with
      | some c => if jsTrim c = "" then none else some (jsTrim c)
      | none => none,
    postType := qp.postType,
    author := qp.author,
    search := match qp.search with
      | some s => if jsTrim s = "" then none else some (jsTrim s)
      | none => none }

/-- Evaluation of the Mongo filter document against one post. -/
def matchesFilter (f : FeedFilter) (p : Post) : Bool :=
  p.isActive
    && (match f.city with | some c => decide (p.city = c) | none => true)
    && (match f.postType with | some t => decide (p.postType = t) | none => true)
    && (match f.author with | some a => decide (p.author = a) | none => true)
    && (match f.search with | some s => regexMatchesCI s p.content | none => true)

/-- Sort key of the `likes` array under a Mongo *descending* sort: MongoDB
sorts a document on an array-valued field by the array's **largest element**
(for a descending sort), and an empty array sorts below every nonempty
value — it does not sort by array length. -/
def likesSortKey (p : Post) : Option Nat := p.likes.max?

/-- Strict order on descending-sort keys (`none` = empty array, lowest). -/
def optNatLtb : Option Nat → Option Nat → Bool
  | none, none => false
  | none, some _ => true
  | some _, none => false
  | some a, some b => decide (a < b)

/-- Relation "`p` may come before `q`" for the three sort specifications:
`{createdAt: -1}` (newest), `{createdAt: 1}` (oldest), and
`{likes: -1, createdAt: -1}` (mostLiked, with the array-sort-key
semantics of `likesSortKey`). -/
def feedLE (s : SortOrder) (p q : Post) : Bool :=
  match s with
  | .newest => decide (q.createdAt ≤ p.createdAt)
  | .oldest => decide (p.createdAt ≤ q.createdAt)
  | .mostLiked =>
    if likesSortKey p = likesSortKey q then decide (q.createdAt ≤ p.createdAt)
    else optNatLtb (likesSortKey q) (likesSortKey p)

/-- Insertion step of the deterministic sort used to model `.sort(sort)`. -/
def insertPostSorted (le : Post → Post → Bool) (p : Post) : List Post → List Post
  | [] => [p]
  | q :: qs => if le p q then p :: q :: qs else q :: insertPostSorted le p qs

/-- Deterministic (stable) sort modelling `.sort(sort)`. -/
def sortPosts (le : Post → Post → Bool) : List Post → List Post
  | [] => []
  | p :: ps => insertPostSorted le p (sortPosts le ps)

/-- Model of `getPostsFeed` (src/services/post.service.ts): build the filter
(`isActive: true` always), pick the sort order (default `newest`), and
return every matching post, sorted.  Population of author fields affects
only the denormalized display projection and is not represented. -/
def getPostsFeed (db : DB) (qp : PostQueryParams) : PostResponse :=
  let f := buildFilter qp
  let matching := (db.posts.map Prod.snd).filter (matchesFilter f)
  { success := true, message := "Posts retrieved successfully",
    posts := some (sortPosts (feedLE (qp.sortBy.getD .newest)) matching) }

/-- Model of `getUserCityFeed` (src/services/post.service.ts): resolve the user,
reject when missing or inactive, default the city filter to the user's
stored city (`queryParams.city || user.city` — an empty caller-supplied
string is falsy and also falls back), then delegate to `getPostsFeed`. -/
def getUserCityFeed (db : DB) (userId : Nat) (qp : PostQueryParams) : PostResponse :=
  match findUser db userId with
  | none =>
    { success := false, message := "User not found",
      error := some "User does not exist" }
  | some user =>
    if !user.isActive then
      { success := false, message := "Account is deactivated",
        error := some "Account status inactive" }
    else
      let cityFilter := match qp.city with
        | some c => if c = "" then user.city else c
        | none => user.city
      getPostsFeed db { qp with city := some cityFilter }

/-- One like/dislike toggle operation, for sequences of interactions. -/
inductive ToggleOp where
  | like (uid : Nat)
  | dislike (uid : Nat)
deriving DecidableEq, Repr

/-- Apply one toggle operation to the store (discarding the response). -/
def applyToggle (db : DB) (pid : Nat) : ToggleOp → DB
  | .like u => (togglePostLike db pid u).1
  | .dislike u => (togglePostDislike db pid u).1

/-- Apply a sequence of toggle operations to the store, left to right. -/
def applyToggles (db : DB) (pid : Nat) (ops : List ToggleOp) : DB :=
  ops.foldl (fun d op => applyToggle d pid op) db

/-- Iterate `n` consecutive `togglePostLike(P,U)` calls with nothing interleaved. -/
def iterToggleLike (db : DB) (pid uid : Nat) : Nat → DB
  | 0 => db
  | n + 1 => (togglePostLike (iterToggleLike db pid uid n) pid uid).1

/-! ## Helper lemmas: document-level like/dislike operations -/

theorem mem_filterNe {l : List Nat} {u x : Nat} :
    x ∈ l.filter (fun id => decide (id ≠ u)) ↔ x ∈ l ∧ x ≠ u := by
  simp [List.mem_filter]

theorem preSaveFix_likes_mem {p : Post} {x : Nat} :
    x ∈ (preSaveFix p).likes ↔ x ∈ p.likes ∧ x ∉ p.dislikes := by
  simp [preSaveFix, List.mem_filter]

theorem preSaveFix_dislikes_mem {p : Post} {x : Nat} :
    x ∈ (preSaveFix p).dislikes ↔ x ∈ p.dislikes ∧ x ∉ p.likes := by
  simp [preSaveFix, List.mem_filter]

theorem preSaveFix_disjoint (p : Post) (x : Nat) :
    ¬(x ∈ (preSaveFix p).likes ∧ x ∈ (preSaveFix p).dislikes) := by
  rintro ⟨hl, hd⟩
  exact (preSaveFix_likes_mem.mp hl).2 (preSaveFix_dislikes_mem.mp hd).1

theorem preSaveFix_nodup_likes {p : Post} (h : p.likes.Nodup) :
    (preSaveFix p).likes.Nodup := h.filter _

theorem preSaveFix_nodup_dislikes {p : Post} (h : p.dislikes.Nodup) :
    (preSaveFix p).dislikes.Nodup := h.filter _

theorem addLike_likes_mem {p : Post} {u x : Nat} :
    x ∈ (addLike p u).likes ↔ x ∈ p.likes ∨ x = u := by
  unfold addLike
  dsimp only
  split
  · rename_i h
    rw [decide_eq_true_eq] at h
    constructor
    · exact Or.inl
    · rintro (hx | rfl)
      · exact hx
      · exact h
  · simp

theorem addLike_dislikes {p : Post} {u : Nat} :
    (addLike p u).dislikes = p.dislikes.filter (fun id => decide (id ≠ u)) := by
  unfold addLike
  dsimp only
  split <;> rfl

theorem addLike_nodup_likes {p : Post} {u : Nat} (h : p.likes.Nodup) :
    (addLike p u).likes.Nodup := by
  unfold addLike
  dsimp only
  split
  · exact h
  · rename_i hn
    rw [decide_eq_true_eq] at hn
    simp [List.nodup_append, h, List.disjoint_singleton, hn]

theorem addDislike_dislikes_mem {p : Post} {u x : Nat} :
    x ∈ (addDislike p u).dislikes ↔ x ∈ p.dislikes ∨ x = u := by
  unfold addDislike
  dsimp only
  split
  · rename_i h
    rw [decide_eq_true_eq] at h
    constructor
    · exact Or.inl
    · rintro (hx | rfl)
      · exact hx
      · exact h
  · simp

theorem addDislike_likes {p : Post} {u : Nat} :
    (addDislike p u).likes = p.likes.filter (fun id => decide (id ≠ u)) := by
  unfold addDislike
  dsimp only
  split <;> rfl

theorem addDislike_nodup_dislikes {p : Post} {u : Nat} (h : p.dislikes.Nodup) :
    (addDislike p u).dislikes.Nodup := by
  unfold addDislike
  dsimp only
  split
  · exact h
  · rename_i hn
    rw [decide_eq_true_eq] at hn
    simp [List.nodup_append, h, List.disjoint_singleton, hn]

/-- All post fields other than the two vote lists agree between `p` and `q`. -/
def votesOnlyChange (p q : Post) : Prop :=
  q.content = p.content ∧ q.postType = p.postType ∧ q.image = p.image ∧
  q.author = p.author ∧ q.city = p.city ∧ q.replies = p.replies ∧
  q.isActive = p.isActive ∧ q.createdAt = p.createdAt

theorem votesOnlyChange_refl (p : Post) : votesOnlyChange p p :=
  ⟨rfl, rfl, rfl, rfl, rfl, rfl, rfl, rfl⟩

theorem votesOnlyChange_trans {p q r : Post}
    (h1 : votesOnlyChange p q) (h2 : votesOnlyChange q r) : votesOnlyChange p r := by
  obtain ⟨a1, a2, a3, a4, a5, a6, a7, a8⟩ := h1
  obtain ⟨b1, b2, b3, b4, b5, b6, b7, b8⟩ := h2
  exact ⟨b1.trans a1, b2.trans a2, b3.trans a3, b4.trans a4,
         b5.trans a5, b6.trans a6, b7.trans a7, b8.trans a8⟩

theorem votesOnlyChange_preSaveFix (p : Post) : votesOnlyChange p (preSaveFix p) :=
  ⟨rfl, rfl, rfl, rfl, rfl, rfl, rfl, rfl⟩

theorem votesOnlyChange_addLike (p : Post) (u : Nat) : votesOnlyChange p (addLike p u) := by
  unfold addLike
  dsimp only
  split <;> exact ⟨rfl, rfl, rfl, rfl, rfl, rfl, rfl, rfl⟩

theorem votesOnlyChange_removeLike (p : Post) (u : Nat) : votesOnlyChange p (removeLike p u) :=
  ⟨rfl, rfl, rfl, rfl, rfl, rfl, rfl, rfl⟩

theorem votesOnlyChange_addDislike (p : Post) (u : Nat) : votesOnlyChange p (addDislike p u) := by
  unfold addDislike
  dsimp only
  split <;> exact ⟨rfl, rfl, rfl, rfl, rfl, rfl, rfl, rfl⟩

theorem votesOnlyChange_removeDislike (p : Post) (u : Nat) :
    votesOnlyChange p (removeDislike p u) :=
  ⟨rfl, rfl, rfl, rfl, rfl, rfl, rfl, rfl⟩

/-- The saved document produced by one `toggleLike`-style call (remove or
add according to the current state, then the pre-save middleware). -/
def toggleLikeDoc (p : Post) (u : Nat) : Post :=
  preSaveFix (if isLikedBy p u then removeLike p u else addLike p u)

/-- The saved document produced by one `toggleDislike`-style call. -/
def toggleDislikeDoc (p : Post) (u : Nat) : Post :=
  preSaveFix (if isDislikedBy p u then removeDislike p u else addDislike p u)

theorem votesOnlyChange_toggleLikeDoc (p : Post) (u : Nat) :
    votesOnlyChange p (toggleLikeDoc p u) := by
  unfold toggleLikeDoc
  split
  · exact votesOnlyChange_trans (votesOnlyChange_removeLike p u)
      (votesOnlyChange_preSaveFix _)
  · exact votesOnlyChange_trans (votesOnlyChange_addLike p u)
      (votesOnlyChange_preSaveFix _)

theorem votesOnlyChange_toggleDislikeDoc (p : Post) (u : Nat) :
    votesOnlyChange p (toggleDislikeDoc p u) := by
  unfold toggleDislikeDoc
  split
  · exact votesOnlyChange_trans (votesOnlyChange_removeDislike p u)
      (votesOnlyChange_preSaveFix _)
  · exact votesOnlyChange_trans (votesOnlyChange_addDislike p u)
      (votesOnlyChange_preSaveFix _)

/-- Full behaviour of one like-toggle on the document, given the
like/dislike mutual-exclusion invariant on the input. -/
theorem toggleLikeDoc_spec (p : Post) (u : Nat)
    (hdisj : ∀ x : Nat, ¬(x ∈ p.likes ∧ x ∈ p.dislikes)) :
    ((u ∈ (toggleLikeDoc p u).likes ↔ u ∉ p.likes) ∧
     u ∉ (toggleLikeDoc p u).dislikes ∧
     (∀ v : Nat, v ≠ u →
        ((v ∈ (toggleLikeDoc p u).likes ↔ v ∈ p.likes) ∧
         (v ∈ (toggleLikeDoc p u).dislikes ↔ v ∈ p.dislikes)))) := by
  unfold toggleLikeDoc
  by_cases hu : u ∈ p.likes
  · have hlk : isLikedBy p u = true := decide_eq_true hu
    rw [hlk]
    simp only [if_true]
    refine ⟨?_, ?_, ?_⟩
    · rw [preSaveFix_likes_mem]
      unfold removeLike
      simp [mem_filterNe, hu]
    · rw [preSaveFix_dislikes_mem]
      unfold removeLike
      rintro ⟨hd, _⟩
      exact hdisj u ⟨hu, hd⟩
    · intro v hv
      constructor
      · rw [preSaveFix_likes_mem]
        unfold removeLike
        simp only [mem_filterNe]
        constructor
        · rintro ⟨⟨hvl, _⟩, _⟩
          exact hvl
        · intro hvl
          exact ⟨⟨hvl, hv⟩, fun hvd => hdisj v ⟨hvl, hvd⟩⟩
      · rw [preSaveFix_dislikes_mem]
        unfold removeLike
        simp only [mem_filterNe]
        constructor
        · rintro ⟨hvd, _⟩
          exact hvd
        · intro hvd
          exact ⟨hvd, fun hvl => hdisj v ⟨hvl.1, hvd⟩⟩
  · have hlk : isLikedBy p u = false := decide_eq_false hu
    rw [hlk]
    simp only [Bool.false_eq_true, if_false]
    refine ⟨?_, ?_, ?_⟩
    · rw [preSaveFix_likes_mem, addLike_likes_mem, addLike_dislikes]
      simp [mem_filterNe, hu]
    · rw [preSaveFix_dislikes_mem, addLike_dislikes]
      rintro ⟨hd, _⟩
      exact (mem_filterNe.mp hd).2 rfl
    · intro v hv
      constructor
      · rw [preSaveFix_likes_mem, addLike_likes_mem, addLike_dislikes]
        simp only [mem_filterNe]
        constructor
        · rintro ⟨hvl | rfl, _⟩
          · exact hvl
          · exact absurd rfl hv
        · intro hvl
          exact ⟨Or.inl hvl, fun hvd => hdisj v ⟨hvl, hvd.1⟩⟩
      · rw [preSaveFix_dislikes_mem, addLike_dislikes, addLike_likes_mem]
        simp only [mem_filterNe]
        constructor
        · rintro ⟨⟨hvd, _⟩, _⟩
          exact hvd
        · intro hvd
          refine ⟨⟨hvd, hv⟩, ?_⟩
          rintro (hvl | rfl)
          · exact hdisj v ⟨hvl, hvd⟩
          · exact hv rfl

/-- Nodup of both lists is preserved by one like-toggle. -/
theorem toggleLikeDoc_nodup {p : Post} {u : Nat}
    (hl : p.likes.Nodup) (hd : p.dislikes.Nodup) :
    (toggleLikeDoc p u).likes.Nodup ∧ (toggleLikeDoc p u).dislikes.Nodup := by
  unfold toggleLikeDoc
  split
  · exact ⟨preSaveFix_nodup_likes (hl.filter _), preSaveFix_nodup_dislikes hd⟩
  · refine ⟨preSaveFix_nodup_likes (addLike_nodup_likes hl), preSaveFix_nodup_dislikes ?_⟩
    rw [addLike_dislikes]
    exact hd.filter _

/-- Full behaviour of one dislike-toggle on the document — the symmetric twin
of `toggleLikeDoc_spec`. -/
theorem toggleDislikeDoc_spec (p : Post) (u : Nat)
    (hdisj : ∀ x : Nat, ¬(x ∈ p.likes ∧ x ∈ p.dislikes)) :
    ((u ∈ (toggleDislikeDoc p u).dislikes ↔ u ∉ p.dislikes) ∧
     u ∉ (toggleDislikeDoc p u).likes ∧
     (∀ v : Nat, v ≠ u →
        ((v ∈ (toggleDislikeDoc p u).likes ↔ v ∈ p.likes) ∧
         (v ∈ (toggleDislikeDoc p u).dislikes ↔ v ∈ p.dislikes)))) := by
  unfold toggleDislikeDoc
  by_cases hu : u ∈ p.dislikes
  · have hlk : isDislikedBy p u = true := decide_eq_true hu
    rw [hlk]
    simp only [if_true]
    refine ⟨?_, ?_, ?_⟩
    · rw [preSaveFix_dislikes_mem]
      unfold removeDislike
      simp [mem_filterNe, hu]
    · rw [preSaveFix_likes_mem]
      unfold removeDislike
      rintro ⟨hl, _⟩
      exact hdisj u ⟨hl, hu⟩
    · intro v hv
      constructor
      · rw [preSaveFix_likes_mem]
        unfold removeDislike
        simp only [mem_filterNe]
        constructor
        · rintro ⟨hvl, _⟩
          exact hvl
        · intro hvl
          exact ⟨hvl, fun hvd => hdisj v ⟨hvl, hvd.1⟩⟩
      · rw [preSaveFix_dislikes_mem]
        unfold removeDislike
        simp only [mem_filterNe]
        constructor
        · rintro ⟨⟨hvd, _⟩, _⟩
          exact hvd
        · intro hvd
          exact ⟨⟨hvd, hv⟩, fun hvl => hdisj v ⟨hvl, hvd⟩⟩
  · have hlk : isDislikedBy p u = false := decide_eq_false hu
    rw [hlk]
    simp only [Bool.false_eq_true, if_false]
    refine ⟨?_, ?_, ?_⟩
    · rw [preSaveFix_dislikes_mem, addDislike_dislikes_mem, addDislike_likes]
      simp [mem_filterNe, hu]
    · rw [preSaveFix_likes_mem, addDislike_likes]
      rintro ⟨hl, _⟩
      exact (mem_filterNe.mp hl).2 rfl
    · intro v hv
      constructor
      · rw [preSaveFix_likes_mem, addDislike_likes, addDislike_dislikes_mem]
        simp only [mem_filterNe]
        constructor
        · rintro ⟨⟨hvl, _⟩, _⟩
          exact hvl
        · intro hvl
          refine ⟨⟨hvl, hv⟩, ?_⟩
          rintro (hvd | rfl)
          · exact hdisj v ⟨hvl, hvd⟩
          · exact hv rfl
      · rw [preSaveFix_dislikes_mem, addDislike_dislikes_mem, addDislike_likes]
        simp only [mem_filterNe]
        constructor
        · rintro ⟨hvd | rfl, _⟩
          · exact hvd
          · exact absurd rfl hv
        · intro hvd
          exact ⟨Or.inl hvd, fun hvl => hdisj v ⟨hvl.1, hvd⟩⟩

/-- Nodup of both lists is preserved by one dislike-toggle. -/
theorem toggleDislikeDoc_nodup {p : Post} {u : Nat}
    (hl : p.likes.Nodup) (hd : p.dislikes.Nodup) :
    (toggleDislikeDoc p u).likes.Nodup ∧ (toggleDislikeDoc p u).dislikes.Nodup := by
  unfold toggleDislikeDoc
  split
  · exact ⟨preSaveFix_nodup_likes hl, preSaveFix_nodup_dislikes (hd.filter _)⟩
  · refine ⟨preSaveFix_nodup_likes ?_, preSaveFix_nodup_dislikes (addDislike_nodup_dislikes hd)⟩
    rw [addDislike_likes]
    exact hl.filter _

/-- The saved document of either toggle is always mutually exclusive. -/
theorem toggleLikeDoc_disjoint (p : Post) (u x : Nat) :
    ¬(x ∈ (toggleLikeDoc p u).likes ∧ x ∈ (toggleLikeDoc p u).dislikes) := by
  unfold toggleLikeDoc
  split <;> exact preSaveFix_disjoint _ x

theorem toggleDislikeDoc_disjoint (p : Post) (u x : Nat) :
    ¬(x ∈ (toggleDislikeDoc p u).likes ∧ x ∈ (toggleDislikeDoc p u).dislikes) := by
  unfold toggleDislikeDoc
  split <;> exact preSaveFix_disjoint _ x

/-! ## Helper lemmas: the document store -/

theorem assocFind_update_self (l : List (Nat × Post)) (pid : Nat) (p : Post)
    (h : ((l.find? (fun e => decide (e.1 = pid))).isSome)) :
    (l.map (fun e => if e.1 = pid then (pid, p) else e)).find?
      (fun e => decide (e.1 = pid)) = some (pid, p) := by
  induction l with
  | nil => simp [List.find?] at h
  | cons a t ih =>
    rw [List.map_cons]
    by_cases ha : a.1 = pid
    · rw [if_pos ha]
      exact List.find?_cons_of_pos _ (by simp)
    · rw [if_neg ha]
      rw [List.find?_cons_of_neg _ (by simpa using ha)]
      refine ih ?_
      have hh := h
      rw [List.find?_cons_of_neg _ (by simpa using ha)] at hh
      exact hh

theorem assocFind_update_other (l : List (Nat × Post)) (pid k : Nat) (p : Post)
    (hk : k ≠ pid) :
    (l.map (fun e => if e.1 = pid then (pid, p) else e)).find?
      (fun e => decide (e.1 = k)) = l.find? (fun e => decide (e.1 = k)) := by
  induction l with
  | nil => rfl
  | cons a t ih =>
    rw [List.map_cons]
    by_cases ha : a.1 = pid
    · rw [if_pos ha]
      rw [List.find?_cons_of_neg _ (by simpa using fun hc => hk hc.symm),
          List.find?_cons_of_neg _ (by simp only [decide_eq_true_eq, ha]; exact fun hc => hk hc.symm)]
      exact ih
    · rw [if_neg ha]
      by_cases hk2 : a.1 = k
      · rw [List.find?_cons_of_pos _ (by simpa using hk2),
            List.find?_cons_of_pos _ (by simpa using hk2)]
      · rw [List.find?_cons_of_neg _ (by simpa using hk2),
            List.find?_cons_of_neg _ (by simpa using hk2)]
        exact ih

theorem assocFind_append_self (l : List (Nat × Post)) (pid : Nat) (p : Post)
    (h : ∀ e ∈ l, e.1 ≠ pid) :
    (l ++ [(pid, p)]).find? (fun e => decide (e.1 = pid)) = some (pid, p) := by
  induction l with
  | nil => exact List.find?_cons_of_pos _ (by simp)
  | cons a t ih =>
    rw [List.cons_append,
        List.find?_cons_of_neg _ (by simpa using h a (List.mem_cons_self a t))]
    exact ih (fun e he => h e (List.mem_cons_of_mem a he))

theorem assocFind_append_other (l : List (Nat × Post)) (pid k : Nat) (p : Post)
    (hk : k ≠ pid) :
    (l ++ [(pid, p)]).find? (fun e => decide (e.1 = k)) =
      l.find? (fun e => decide (e.1 = k)) := by
  induction l with
  | nil =>
    rw [List.nil_append, List.find?_cons_of_neg _ (by simpa using fun hc => hk hc.symm)]
  | cons a t ih =>
    rw [List.cons_append]
    by_cases hk2 : a.1 = k
    · rw [List.find?_cons_of_pos _ (by simpa using hk2),
          List.find?_cons_of_pos _ (by simpa using hk2)]
    · rw [List.find?_cons_of_neg _ (by simpa using hk2),
          List.find?_cons_of_neg _ (by simpa using hk2)]
      exact ih

theorem findPost_persistPost_self (db : DB) (pid : Nat) (p : Post) :
    findPost (persistPost db pid p) pid = some p := by
  unfold persistPost
  split
  · rename_i h
    unfold findPost updatePost
    simp only
    rw [assocFind_update_self db.posts pid p h]
    rfl
  · rename_i h
    unfold findPost
    simp only
    rw [assocFind_append_self db.posts pid p (by
      intro e he
      have hn := Option.not_isSome_iff_eq_none.mp h
      have := List.find?_eq_none.mp hn e he
      simpa using this)]
    rfl

theorem findPost_persistPost_other (db : DB) (pid k : Nat) (p : Post) (hk : k ≠ pid) :
    findPost (persistPost db pid p) k = findPost db k := by
  unfold persistPost
  split
  · unfold findPost updatePost
    simp only
    rw [assocFind_update_other db.posts pid k p hk]
  · unfold findPost
    simp only
    rw [assocFind_append_other db.posts pid k p hk]

theorem persistPost_users (db : DB) (pid : Nat) (p : Post) :
    (persistPost db pid p).users = db.users := by
  unfold persistPost
  split <;> rfl

theorem savePost_fst (db : DB) (pid : Nat) (p : Post) :
    (savePost db pid p).1 = persistPost db pid (preSaveFix p) := rfl

theorem savePost_snd (db : DB) (pid : Nat) (p : Post) :
    (savePost db pid p).2 = preSaveFix p := rfl

/-! ## Helper lemmas: the toggle services on the store -/

theorem togglePostLike_found (db : DB) (pid u : Nat) (p : Post)
    (hfind : findPost db pid = some p) (hact : p.isActive = true) :
    togglePostLike db pid u =
      (persistPost db pid (toggleLikeDoc p u),
       { success := true,
         message := if isLikedBy p u then "Post unliked successfully"
                    else "Post liked successfully",
         post := some (toggleLikeDoc p u) }) := by
  unfold togglePostLike
  rw [hfind]
  simp [hact, savePost, postSaveHook, toggleLikeDoc]

theorem togglePostLike_inactive (db : DB) (pid u : Nat) (p : Post)
    (hfind : findPost db pid = some p) (hact : p.isActive = false) :
    togglePostLike db pid u =
      (db, { success := false, message := "Cannot like inactive post",
             error := some "Post inactive" }) := by
  unfold togglePostLike
  rw [hfind]
  simp [hact]

theorem togglePostLike_notFound (db : DB) (pid u : Nat)
    (hfind : findPost db pid = none) :
    togglePostLike db pid u =
      (db, { success := false, message := "Post not found",
             error := some "Post does not exist" }) := by
  unfold togglePostLike
  rw [hfind]

theorem togglePostDislike_found (db : DB) (pid u : Nat) (p : Post)
    (hfind : findPost db pid = some p) (hact : p.isActive = true) :
    togglePostDislike db pid u =
      (persistPost db pid (toggleDislikeDoc p u),
       { success := true,
         message := if isDislikedBy p u then "Post undisliked successfully"
                    else "Post disliked successfully",
         post := some (toggleDislikeDoc p u) }) := by
  unfold togglePostDislike
  rw [hfind]
  simp [hact, savePost, postSaveHook, toggleDislikeDoc]

theorem togglePostDislike_inactive (db : DB) (pid u : Nat) (p : Post)
    (hfind : findPost db pid = some p) (hact : p.isActive = false) :
    togglePostDislike db pid u =
      (db, { success := false, message := "Cannot dislike inactive post",
             error := some "Post inactive" }) := by
  unfold togglePostDislike
  rw [hfind]
  simp [hact]

theorem togglePostDislike_notFound (db : DB) (pid u : Nat)
    (hfind : findPost db pid = none) :
    togglePostDislike db pid u =
      (db, { success := false, message := "Post not found",
             error := some "Post does not exist" }) := by
  unfold togglePostDislike
  rw [hfind]

/-- The Post entity invariant on the vote lists: neither list holds a
duplicate, and no user id is in both. -/
def postInv (p : Post) : Prop :=
  p.likes.Nodup ∧ p.dislikes.Nodup ∧ ∀ u : Nat, ¬(u ∈ p.likes ∧ u ∈ p.dislikes)

theorem toggleLikeDoc_inv {p : Post} (u : Nat) (h : postInv p) :
    postInv (toggleLikeDoc p u) :=
  ⟨(toggleLikeDoc_nodup h.1 h.2.1).1, (toggleLikeDoc_nodup h.1 h.2.1).2,
   toggleLikeDoc_disjoint p u⟩

theorem toggleDislikeDoc_inv {p : Post} (u : Nat) (h : postInv p) :
    postInv (toggleDislikeDoc p u) :=
  ⟨(toggleDislikeDoc_nodup h.1 h.2.1).1, (toggleDislikeDoc_nodup h.1 h.2.1).2,
   toggleDislikeDoc_disjoint p u⟩

theorem applyToggle_inv (db : DB) (pid : Nat) (op : ToggleOp) (p : Post)
    (hfind : findPost db pid = some p) (hinv : postInv p) :
    ∃ q, findPost (applyToggle db pid op) pid = some q ∧ postInv q := by
  cases op with
  | like u =>
    by_cases hact : p.isActive = true
    · refine ⟨toggleLikeDoc p u, ?_, toggleLikeDoc_inv u hinv⟩
      show findPost (togglePostLike db pid u).1 pid = _
      rw [togglePostLike_found db pid u p hfind hact]
      exact findPost_persistPost_self db pid _
    · have hact' : p.isActive = false := by
        cases hb : p.isActive
        · rfl
        · exact absurd hb hact
      refine ⟨p, ?_, hinv⟩
      show findPost (togglePostLike db pid u).1 pid = _
      rw [togglePostLike_inactive db pid u p hfind hact']
      exact hfind
  | dislike u =>
    by_cases hact : p.isActive = true
    · refine ⟨toggleDislikeDoc p u, ?_, toggleDislikeDoc_inv u hinv⟩
      show findPost (togglePostDislike db pid u).1 pid = _
      rw [togglePostDislike_found db pid u p hfind hact]
      exact findPost_persistPost_self db pid _
    · have hact' : p.isActive = false := by
        cases hb : p.isActive
        · rfl
        · exact absurd hb hact
      refine ⟨p, ?_, hinv⟩
      show findPost (togglePostDislike db pid u).1 pid = _
      rw [togglePostDislike_inactive db pid u p hfind hact']
      exact hfind

theorem applyToggles_inv (db : DB) (pid : Nat) (ops : List ToggleOp) (p : Post)
    (hfind : findPost db pid = some p) (hinv : postInv p) :
    ∃ q, findPost (applyToggles db pid ops) pid = some q ∧ postInv q := by
  induction ops generalizing db p with
  | nil => exact ⟨p, hfind, hinv⟩
  | cons op t ih =>
    obtain ⟨q, hq, hqinv⟩ := applyToggle_inv db pid op p hfind hinv
    exact ih (applyToggle db pid op) q hq hqinv

/-! ## Claim theorems -/

/-- C1.  For every post `P` (satisfying the entity invariant when read, as
every post this model ever persists does) and every user `U`, after any
sequence of `toggleLike` and `toggleDislike` operations on `P` — each of
which persists `P` through the `pre('save')` consistency check — `U` is
never simultaneously a member of both the like list and the dislike list of
`P`, and each list contains `U` at most once. -/
theorem c1_toggle_sequences_preserve_exclusion_and_multiplicity
    (db : DB) (pid : Nat) (p : Post)
    (hfind : findPost db pid = some p)
    (hlnd : p.likes.Nodup) (hdnd : p.dislikes.Nodup)
    (hdisj : ∀ u : Nat, ¬(u ∈ p.likes ∧ u ∈ p.dislikes)) :
    ∀ (ops : List ToggleOp) (q : Post),
      findPost (applyToggles db pid ops) pid = some q →
      (∀ u : Nat, ¬(u ∈ q.likes ∧ u ∈ q.dislikes)) ∧
      (∀ u : Nat, q.likes.count u ≤ 1 ∧ q.dislikes.count u ≤ 1) := by
  intro ops q hq
  obtain ⟨q', hq', hinv'⟩ := applyToggles_inv db pid ops p hfind ⟨hlnd, hdnd, hdisj⟩
  rw [hq] at hq'
  have hqq : q = q' := by
    injection hq'
  subst hqq
  refine ⟨hinv'.2.2, fun u => ⟨?_, ?_⟩⟩
  · exact List.nodup_iff_count_le_one.mp hinv'.1 u
  · exact List.nodup_iff_count_le_one.mp hinv'.2.1 u

def c1Post : Post :=
  { content := "hello", postType := .recommend, image := none, author := 2,
    city := "Austin", likes := [], dislikes := [], replies := [],
    isActive := true, createdAt := 0 }

def c1DB : DB := { users := [], posts := [(1, c1Post)] }

/-- Witness for C1 at a concrete store, post and operation sequence. -/
theorem c1_witness :
    (findPost c1DB 1 = some c1Post) ∧
    (∀ (ops : List ToggleOp) (q : Post),
      findPost (applyToggles c1DB 1 ops) 1 = some q →
      (∀ u : Nat, ¬(u ∈ q.likes ∧ u ∈ q.dislikes)) ∧
      (∀ u : Nat, q.likes.count u ≤ 1 ∧ q.dislikes.count u ≤ 1)) :=
  ⟨by decide,
   c1_toggle_sequences_preserve_exclusion_and_multiplicity c1DB 1 c1Post
     (by decide) (by decide) (by decide) (by simp [c1Post])⟩

/-- C2.  For every active existing post `P` and user `U` (with the entity's
mutual-exclusion invariant holding on the stored `P`, as for every post this
model persists), a single `togglePostLike(P,U)` removes `U` from the dislike
set, flips `U`'s membership in the like set, leaves every other user's
membership in both sets unchanged, and reports the new liked state
(`liked` when added, `unliked` when removed); symmetrically for
`togglePostDislike` with the two sets reversed. -/
theorem c2_single_toggle_behaviour (db : DB) (pid u : Nat) (p : Post)
    (hfind : findPost db pid = some p) (hact : p.isActive = true)
    (hdisj : ∀ x : Nat, ¬(x ∈ p.likes ∧ x ∈ p.dislikes)) :
    (∃ p', findPost (togglePostLike db pid u).1 pid = some p' ∧
      u ∉ p'.dislikes ∧
      (u ∈ p'.likes ↔ u ∉ p.likes) ∧
      (∀ v : Nat, v ≠ u →
        ((v ∈ p'.likes ↔ v ∈ p.likes) ∧ (v ∈ p'.dislikes ↔ v ∈ p.dislikes))) ∧
      (togglePostLike db pid u).2.success = true ∧
      ((u ∈ p'.likes ∧ (togglePostLike db pid u).2.message = "Post liked successfully") ∨
       (u ∉ p'.likes ∧ (togglePostLike db pid u).2.message = "Post unliked successfully"))) ∧
    (∃ p', findPost (togglePostDislike db pid u).1 pid = some p' ∧
      u ∉ p'.likes ∧
      (u ∈ p'.dislikes ↔ u ∉ p.dislikes) ∧
      (∀ v : Nat, v ≠ u →
        ((v ∈ p'.likes ↔ v ∈ p.likes) ∧ (v ∈ p'.dislikes ↔ v ∈ p.dislikes))) ∧
      (togglePostDislike db pid u).2.success = true ∧
      ((u ∈ p'.dislikes ∧
          (togglePostDislike db pid u).2.message = "Post disliked successfully") ∨
       (u ∉ p'.dislikes ∧
          (togglePostDislike db pid u).2.message = "Post undisliked successfully"))) := by
  obtain ⟨hflipL, hgoneL, hframeL⟩ := toggleLikeDoc_spec p u hdisj
  obtain ⟨hflipD, hgoneD, hframeD⟩ := toggleDislikeDoc_spec p u hdisj
  constructor
  · refine ⟨toggleLikeDoc p u, ?_, hgoneL, hflipL, hframeL, ?_, ?_⟩
    · rw [togglePostLike_found db pid u p hfind hact]
      exact findPost_persistPost_self db pid _
    · rw [togglePostLike_found db pid u p hfind hact]
    · rw [togglePostLike_found db pid u p hfind hact]
      by_cases hu : u ∈ p.likes
      · right
        refine ⟨fun hc => (hflipL.mp hc) hu, ?_⟩
        simp [isLikedBy, hu]
      · left
        refine ⟨hflipL.mpr hu, ?_⟩
        simp [isLikedBy, hu]
  · refine ⟨toggleDislikeDoc p u, ?_, hgoneD, hflipD, hframeD, ?_, ?_⟩
    · rw [togglePostDislike_found db pid u p hfind hact]
      exact findPost_persistPost_self db pid _
    · rw [togglePostDislike_found db pid u p hfind hact]
    · rw [togglePostDislike_found db pid u p hfind hact]
      by_cases hu : u ∈ p.dislikes
      · right
        refine ⟨fun hc => (hflipD.mp hc) hu, ?_⟩
        simp [isDislikedBy, hu]
      · left
        refine ⟨hflipD.mpr hu, ?_⟩
        simp [isDislikedBy, hu]

def c2Post : Post :=
  { content := "hi", postType := .help, image := none, author := 2,
    city := "Austin", likes := [], dislikes := [9], replies := [],
    isActive := true, createdAt := 0 }

def c2DB : DB := { users := [], posts := [(5, c2Post)] }

/-- Witness for C2: a user who currently dislikes post 5 toggles. -/
theorem c2_witness :
    (findPost c2DB 5 = some c2Post) ∧ (c2Post.isActive = true) ∧
    ((∃ p', findPost (togglePostLike c2DB 5 9).1 5 = some p' ∧
      9 ∉ p'.dislikes ∧
      (9 ∈ p'.likes ↔ 9 ∉ c2Post.likes) ∧
      (∀ v : Nat, v ≠ 9 →
        ((v ∈ p'.likes ↔ v ∈ c2Post.likes) ∧ (v ∈ p'.dislikes ↔ v ∈ c2Post.dislikes))) ∧
      (togglePostLike c2DB 5 9).2.success = true ∧
      ((9 ∈ p'.likes ∧ (togglePostLike c2DB 5 9).2.message = "Post liked successfully") ∨
       (9 ∉ p'.likes ∧ (togglePostLike c2DB 5 9).2.message = "Post unliked successfully"))) ∧
    (∃ p', findPost (togglePostDislike c2DB 5 9).1 5 = some p' ∧
      9 ∉ p'.likes ∧
      (9 ∈ p'.dislikes ↔ 9 ∉ c2Post.dislikes) ∧
      (∀ v : Nat, v ≠ 9 →
        ((v ∈ p'.likes ↔ v ∈ c2Post.likes) ∧ (v ∈ p'.dislikes ↔ v ∈ c2Post.dislikes))) ∧
      (togglePostDislike c2DB 5 9).2.success = true ∧
      ((9 ∈ p'.dislikes ∧
          (togglePostDislike c2DB 5 9).2.message = "Post disliked successfully") ∨
       (9 ∉ p'.dislikes ∧
          (togglePostDislike c2DB 5 9).2.message = "Post undisliked successfully")))) :=
  ⟨by decide, by decide,
   c2_single_toggle_behaviour c2DB 5 9 c2Post (by decide) (by decide)
     (by simp [c2Post])⟩

theorem iterToggleLike_spec (db : DB) (pid u : Nat) (p : Post)
    (hfind : findPost db pid = some p) (hact : p.isActive = true)
    (hdisj : ∀ x : Nat, ¬(x ∈ p.likes ∧ x ∈ p.dislikes)) :
    ∀ n : Nat, 1 ≤ n →
      ∃ q, findPost (iterToggleLike db pid u n) pid = some q ∧
        (u ∈ q.likes ↔ (Odd n ↔ u ∉ p.likes)) ∧
        u ∉ q.dislikes ∧
        q.isActive = true ∧
        (∀ x : Nat, ¬(x ∈ q.likes ∧ x ∈ q.dislikes)) := by
  intro n hn
  induction n with
  | zero => exact absurd hn (by simp)
  | succ m ih =>
    by_cases hm : 1 ≤ m
    · obtain ⟨q, hq, hparity, hqd, hqact, hqdisj⟩ := ih hm
      obtain ⟨hflip, hgone, _⟩ := toggleLikeDoc_spec q u hqdisj
      refine ⟨toggleLikeDoc q u, ?_, ?_, hgone, ?_, toggleLikeDoc_disjoint q u⟩
      · show findPost (togglePostLike (iterToggleLike db pid u m) pid u).1 pid = _
        rw [togglePostLike_found _ pid u q hq hqact]
        exact findPost_persistPost_self _ pid _
      · have hodd : Odd (m + 1) ↔ ¬ Odd m := by
          rw [Nat.odd_add_one]
        constructor
        · intro hmem
          have hq' : u ∉ q.likes := hflip.mp hmem
          tauto
        · intro hiff
          apply hflip.mpr
          tauto
      · have := votesOnlyChange_toggleLikeDoc q u
        rw [this.2.2.2.2.2.2.1]
        exact hqact
    · have hm0 : m = 0 := by omega
      subst hm0
      obtain ⟨hflip, hgone, _⟩ := toggleLikeDoc_spec p u hdisj
      refine ⟨toggleLikeDoc p u, ?_, ?_, hgone, ?_, toggleLikeDoc_disjoint p u⟩
      · show findPost (togglePostLike db pid u).1 pid = _
        rw [togglePostLike_found db pid u p hfind hact]
        exact findPost_persistPost_self db pid _
      · have : Odd 1 := ⟨0, by simp⟩
        tauto
      · have := votesOnlyChange_toggleLikeDoc p u
        rw [this.2.2.2.2.2.2.1]
        exact hact

/-- C3 (amended).  For every stored active post `P` (satisfying the entity
invariant) and user `U`, after `toggleLike(P,U)` is called `n ≥ 1` times with
no other interleaved operations, `U`'s like-membership equals the exclusive
disjunction of `Odd n` with `U`'s initial like-membership, and `U` is not in
the dislike list.  In particular, when `U` initially engaged with `P` in no
way, an odd number of calls leaves `U ∈ likes(P)` and `U ∉ dislikes(P)`, and
an even number of calls restores `U`'s initial membership in both lists.
(The original unconditional claim fails when `U` already liked `P` — an odd
number of calls then removes the like — and when `U` had disliked `P` — an
even number of calls does not restore the dislike; see the
counterexample.) -/
theorem c3_toggle_like_parity (db : DB) (pid u : Nat) (p : Post)
    (hfind : findPost db pid = some p) (hact : p.isActive = true)
    (hdisj : ∀ x : Nat, ¬(x ∈ p.likes ∧ x ∈ p.dislikes))
    (n : Nat) (hn : 1 ≤ n) :
    ∃ q, findPost (iterToggleLike db pid u n) pid = some q ∧
      (u ∈ q.likes ↔ (Odd n ↔ u ∉ p.likes)) ∧
      u ∉ q.dislikes ∧
      ((u ∉ p.likes ∧ u ∉ p.dislikes) →
        ((Odd n → (u ∈ q.likes ∧ u ∉ q.dislikes)) ∧
         (¬ Odd n → ((u ∈ q.likes ↔ u ∈ p.likes) ∧ (u ∈ q.dislikes ↔ u ∈ p.dislikes))))) := by
  obtain ⟨q, hq, hparity, hqd, _, _⟩ := iterToggleLike_spec db pid u p hfind hact hdisj n hn
  refine ⟨q, hq, hparity, hqd, ?_⟩
  rintro ⟨hul, hud⟩
  constructor
  · intro hodd
    exact ⟨hparity.mpr (by tauto), hqd⟩
  · intro heven
    constructor
    · constructor
      · intro hmem
        exact absurd (hparity.mp hmem) (by tauto)
      · intro hmem
        exact absurd hmem hul
    · constructor
      · intro hmem
        exact absurd hmem hqd
      · intro hmem
        exact absurd hmem hud

def c3Post : Post :=
  { content := "hi", postType := .update, image := none, author := 2,
    city := "Austin", likes := [7], dislikes := [], replies := [],
    isActive := true, createdAt := 0 }

def c3DB : DB := { users := [], posts := [(1, c3Post)] }

/-- The stored post after user 7 toggles like once on `c3Post`. -/
def c3PostAfter : Post :=
  { content := "hi", postType := .update, image := none, author := 2,
    city := "Austin", likes := [], dislikes := [], replies := [],
    isActive := true, createdAt := 0 }

/-- Counterexample to C3 as stated: user 7 already likes post 1
(`likes = [7]`); after an odd number (one) of `togglePostLike` calls, 7 is
**not** a member of the like list, contradicting "after an odd number of
calls, U ∈ likes(P)". -/
theorem c3_counterexample :
    Odd 1 ∧ (7 ∈ c3Post.likes) ∧
    ¬(∀ q : Post, findPost (iterToggleLike c3DB 1 7 1) 1 = some q → 7 ∈ q.likes) := by
  refine ⟨⟨0, by simp⟩, by decide, fun h => ?_⟩
  have := h c3PostAfter (by decide)
  simp [c3PostAfter] at this

def c3wPost : Post :=
  { content := "hi", postType := .update, image := none, author := 2,
    city := "Austin", likes := [], dislikes := [], replies := [],
    isActive := true, createdAt := 0 }

def c3wDB : DB := { users := [], posts := [(4, c3wPost)] }

/-- Witness for the amended C3 at a concrete store and `n = 3`. -/
theorem c3_witness :
    (findPost c3wDB 4 = some c3wPost) ∧ (c3wPost.isActive = true) ∧ (1 ≤ 3) ∧
    (∃ q, findPost (iterToggleLike c3wDB 4 7 3) 4 = some q ∧
      (7 ∈ q.likes ↔ (Odd 3 ↔ 7 ∉ c3wPost.likes)) ∧
      7 ∉ q.dislikes ∧
      ((7 ∉ c3wPost.likes ∧ 7 ∉ c3wPost.dislikes) →
        ((Odd 3 → (7 ∈ q.likes ∧ 7 ∉ q.dislikes)) ∧
         (¬ Odd 3 → ((7 ∈ q.likes ↔ 7 ∈ c3wPost.likes) ∧
                     (7 ∈ q.dislikes ↔ 7 ∈ c3wPost.dislikes)))))) :=
  ⟨by decide, by decide, by decide,
   c3_toggle_like_parity c3wDB 4 7 c3wPost (by decide) (by decide)
     (by simp [c3wPost]) 3 (by decide)⟩

/-- C9.  For every active existing post `P` and user `U`, `togglePostLike`
and `togglePostDislike` modify only the vote lists of `P`: the content,
postType, image, author, city, reply sequence and active flag (and creation
time) of `P` are unchanged, no other post in the store is modified, and the
users collection is untouched. -/
theorem c9_toggles_touch_only_vote_lists (db : DB) (pid u : Nat) (p : Post)
    (hfind : findPost db pid = some p) (hact : p.isActive = true) :
    ((∃ p', findPost (togglePostLike db pid u).1 pid = some p' ∧
      p'.content = p.content ∧ p'.postType = p.postType ∧ p'.image = p.image ∧
      p'.author = p.author ∧ p'.city = p.city ∧ p'.replies = p.replies ∧
      p'.isActive = p.isActive ∧ p'.createdAt = p.createdAt) ∧
     (∀ k : Nat, k ≠ pid → findPost (togglePostLike db pid u).1 k = findPost db k) ∧
     ((togglePostLike db pid u).1.users = db.users)) ∧
    ((∃ p', findPost (togglePostDislike db pid u).1 pid = some p' ∧
      p'.content = p.content ∧ p'.postType = p.postType ∧ p'.image = p.image ∧
      p'.author = p.author ∧ p'.city = p.city ∧ p'.replies = p.replies ∧
      p'.isActive = p.isActive ∧ p'.createdAt = p.createdAt) ∧
     (∀ k : Nat, k ≠ pid → findPost (togglePostDislike db pid u).1 k = findPost db k) ∧
     ((togglePostDislike db pid u).1.users = db.users)) := by
  constructor
  · rw [togglePostLike_found db pid u p hfind hact]
    obtain ⟨h1, h2, h3, h4, h5, h6, h7, h8⟩ := votesOnlyChange_toggleLikeDoc p u
    refine ⟨⟨toggleLikeDoc p u, findPost_persistPost_self db pid _,
             h1, h2, h3, h4, h5, h6, h7, h8⟩, ?_, ?_⟩
    · intro k hk
      exact findPost_persistPost_other db pid k _ hk
    · exact persistPost_users db pid _
  · rw [togglePostDislike_found db pid u p hfind hact]
    obtain ⟨h1, h2, h3, h4, h5, h6, h7, h8⟩ := votesOnlyChange_toggleDislikeDoc p u
    refine ⟨⟨toggleDislikeDoc p u, findPost_persistPost_self db pid _,
             h1, h2, h3, h4, h5, h6, h7, h8⟩, ?_, ?_⟩
    · intro k hk
      exact findPost_persistPost_other db pid k _ hk
    · exact persistPost_users db pid _

def c9PostA : Post :=
  { content := "first", postType := .event, image := some "http://x.co/a.png",
    author := 2, city := "Austin", likes := [3], dislikes := [4],
    replies := [{ rid := some 1, content := "re", author := 3 }],
    isActive := true, createdAt := 11 }

def c9PostB : Post :=
  { content := "second", postType := .help, image := none, author := 3,
    city := "Denver", likes := [], dislikes := [], replies := [],
    isActive := true, createdAt := 12 }

def c9User : User :=
  { email := "u@x.co", firstName := "A", lastName := "B", city := "Austin",
    bio := "", isVerified := false, postsCount := 1, isActive := true }

def c9DB : DB := { users := [(2, c9User)], posts := [(1, c9PostA), (2, c9PostB)] }

/-- Witness for C9 at a concrete two-post store. -/
theorem c9_witness :
    (findPost c9DB 1 = some c9PostA) ∧ (c9PostA.isActive = true) ∧
    (((∃ p', findPost (togglePostLike c9DB 1 7).1 1 = some p' ∧
      p'.content = c9PostA.content ∧ p'.postType = c9PostA.postType ∧
      p'.image = c9PostA.image ∧ p'.author = c9PostA.author ∧
      p'.city = c9PostA.city ∧ p'.replies = c9PostA.replies ∧
      p'.isActive = c9PostA.isActive ∧ p'.createdAt = c9PostA.createdAt) ∧
     (∀ k : Nat, k ≠ 1 → findPost (togglePostLike c9DB 1 7).1 k = findPost c9DB k) ∧
     ((togglePostLike c9DB 1 7).1.users = c9DB.users)) ∧
    ((∃ p', findPost (togglePostDislike c9DB 1 7).1 1 = some p' ∧
      p'.content = c9PostA.content ∧ p'.postType = c9PostA.postType ∧
      p'.image = c9PostA.image ∧ p'.author = c9PostA.author ∧
      p'.city = c9PostA.city ∧ p'.replies = c9PostA.replies ∧
      p'.isActive = c9PostA.isActive ∧ p'.createdAt = c9PostA.createdAt) ∧
     (∀ k : Nat, k ≠ 1 → findPost (togglePostDislike c9DB 1 7).1 k = findPost c9DB k) ∧
     ((togglePostDislike c9DB 1 7).1.users = c9DB.users))) :=
  ⟨by decide, by decide, c9_toggles_touch_only_vote_lists c9DB 1 7 c9PostA (by decide) (by decide)⟩

theorem removeReply_no_match (p : Post) (mid : Nat)
    (hnone : ∀ r' ∈ p.replies, r'.rid ≠ some mid) :
    (removeReply p mid).replies = p.replies := by
  unfold removeReply
  simp only
  exact List.filter_eq_self.mpr (fun a ha => decide_eq_true (hnone a ha))

/-- C8.  `addReply` followed immediately by `removeReply` with the added
reply's identity (fresh, as Mongo-assigned embedded ids are) yields a reply
sequence equal as a multiset to the sequence before the `addReply` call;
and `removeReply` with an identity matching no stored reply leaves the
sequence unchanged (both operations persist through the pre-save middleware
and neither can fail).  Each operation below is wrapped in `preSaveFix`
because the instance methods end in `this.save()`. -/
theorem c8_reply_add_remove_roundtrip (p : Post) (r : Reply) (nid : Nat)
    (hid : r.rid = some nid)
    (hfresh : ∀ r' ∈ p.replies, r'.rid ≠ some nid) :
    (((preSaveFix (removeReply (preSaveFix (addReply p r)) nid)).replies : Multiset Reply)
        = (p.replies : Multiset Reply)) ∧
    (preSaveFix (removeReply p nid)).replies = p.replies := by
  constructor
  · have hrep : (preSaveFix (removeReply (preSaveFix (addReply p r)) nid)).replies
        = (p.replies ++ [r]).filter (fun r' => decide (r'.rid ≠ some nid)) := rfl
    rw [hrep, List.filter_append]
    have h1 : p.replies.filter (fun r' => decide (r'.rid ≠ some nid)) = p.replies :=
      List.filter_eq_self.mpr (fun a ha => decide_eq_true (hfresh a ha))
    have h2 : [r].filter (fun r' => decide (r'.rid ≠ some nid)) = [] := by
      simp [List.filter, hid]
    rw [h1, h2, List.append_nil]
  · exact removeReply_no_match p nid hfresh

def c8Post : Post :=
  { content := "base", postType := .recommend, image := none, author := 2,
    city := "Austin", likes := [], dislikes := [],
    replies := [{ rid := some 1, content := "first", author := 3 },
                { rid := none, content := "orphan", author := 4 }],
    isActive := true, createdAt := 0 }

def c8NewReply : Reply := { rid := some 9, content := "new", author := 5 }

/-- Witness for C8 at a concrete post with a fresh reply id. -/
theorem c8_witness :
    (c8NewReply.rid = some 9) ∧
    (∀ r' ∈ c8Post.replies, r'.rid ≠ some 9) ∧
    ((((preSaveFix (removeReply (preSaveFix (addReply c8Post c8NewReply)) 9)).replies :
        Multiset Reply) = (c8Post.replies : Multiset Reply)) ∧
     (preSaveFix (removeReply c8Post 9)).replies = c8Post.replies) :=
  ⟨by decide, by decide,
   c8_reply_add_remove_roundtrip c8Post c8NewReply 9 (by decide) (by decide)⟩

theorem one_le_length_of_ne_empty {s : String} (h : s ≠ "") : 1 ≤ s.length := by
  by_contra hlt
  push_neg at hlt
  have h0 : s.data.length = 0 := by
    have : s.length = s.data.length := rfl
    omega
  have hd : s.data = [] := List.length_eq_zero.mp h0
  exact h (String.ext (by rw [hd]))

/-- Whenever `createPost` reports success, the request content trimmed to a
nonempty string of at most 280 characters. -/
theorem createPost_success_content (db : DB) (uid : Nat) (pd : CreatePostRequest)
    (nid now : Nat)
    (h : (createPost db uid pd nid now).2.success = true) :
    jsTrim (pd.content.getD "") ≠ "" ∧ (jsTrim (pd.content.getD "")).length ≤ 280 := by
  unfold createPost at h
  split at h
  · simp at h
  · split at h
    · simp at h
    · split at h
      · simp at h
      · rename_i h1
        split at h
        · simp at h
        · split at h
          · simp at h
          · rename_i h2
            exact ⟨h1, by omega⟩

/-- C6.  For every active existing author and valid post type (with a
well-formed city and no image attached), `createPost` rejects content whose
trimmed length is 281 with the `ValidationError`-class length message and
creates nothing; accepts content whose trimmed length is exactly 280;
rejects empty or whitespace-only content; and in general every accepted
request has trimmed content length in `[1, 280]`. -/
theorem c6_content_length_bounds (db : DB) (uid : Nat) (user : User)
    (pt : PostType) (c : String) (s281 s280 sws : String)
    (pd : CreatePostRequest) (nid1 nid2 nid3 nid4 now : Nat)
    (hfind : findUser db uid = some user) (hact : user.isActive = true)
    (hc : c ≠ "")
    (h281 : (jsTrim s281).length = 281)
    (h280 : (jsTrim s280).length = 280)
    (hws : jsTrim sws = "")
    (hsucc : (createPost db uid pd nid4 now).2.success = true) :
    ((createPost db uid
        { content := some s281, postType := some pt, image := none, city := some c }
        nid1 now).2.success = false ∧
     (createPost db uid
        { content := some s281, postType := some pt, image := none, city := some c }
        nid1 now).2.message = "Post content cannot exceed 280 characters" ∧
     (createPost db uid
        { content := some s281, postType := some pt, image := none, city := some c }
        nid1 now).1 = db) ∧
    ((createPost db uid
        { content := some s280, postType := some pt, image := none, city := some c }
        nid2 now).2.success = true) ∧
    ((createPost db uid
        { content := some sws, postType := some pt, image := none, city := some c }
        nid3 now).2.success = false ∧
     (createPost db uid
        { content := some sws, postType := some pt, image := none, city := some c }
        nid3 now).2.message = "Post content is required" ∧
     (createPost db uid
        { content := some sws, postType := some pt, image := none, city := some c }
        nid3 now).1 = db) ∧
    (∃ s, pd.content = some s ∧
      1 ≤ (jsTrim s).length ∧ (jsTrim s).length ≤ 280) := by
  have hne281 : jsTrim s281 ≠ "" := by
    intro hz
    rw [hz] at h281
    simp [String.length] at h281
  have hne280 : jsTrim s280 ≠ "" := by
    intro hz
    rw [hz] at h280
    simp [String.length] at h280
  refine ⟨?_, ?_, ?_, ?_⟩
  · simp only [createPost, hfind, hact, Bool.not_true, Bool.false_eq_true, if_false,
      Option.getD_some]
    rw [if_neg hne281, if_pos (show 280 < (jsTrim s281).length by omega)]
    exact ⟨rfl, rfl, rfl⟩
  · simp only [createPost, hfind, hact, Bool.not_true, Bool.false_eq_true, if_false,
      Option.getD_some]
    rw [if_neg hne280, if_neg (show ¬ 280 < (jsTrim s280).length by omega), if_neg hc]
  · simp only [createPost, hfind, hact, Bool.not_true, Bool.false_eq_true, if_false,
      Option.getD_some]
    rw [if_pos hws]
    exact ⟨rfl, rfl, rfl⟩
  · obtain ⟨hne, hle⟩ := createPost_success_content db uid pd nid4 now hsucc
    rcases hcont : pd.content with _ | s
    · rw [hcont] at hne
      exact absurd rfl hne
    · rw [hcont] at hne hle
      exact ⟨s, rfl, one_le_length_of_ne_empty hne, hle⟩

def c6User : User :=
  { email := "a@b.co", firstName := "A", lastName := "B", city := "Austin",
    bio := "", isVerified := false, postsCount := 0, isActive := true }

def c6DB : DB := { users := [(1, c6User)], posts := [] }

def c6Str281 : String := String.mk (List.replicate 281 'a')

def c6Str280 : String := String.mk (List.replicate 280 'a')

def c6OkReq : CreatePostRequest :=
  { content := some "hello", postType := some .recommend, image := none,
    city := some "Austin" }

set_option maxRecDepth 10000 in
/-- Witness for C6 at a concrete author and concrete 281/280-character and
whitespace-only contents. -/
theorem c6_witness :
    (findUser c6DB 1 = some c6User) ∧ (c6User.isActive = true) ∧
    ((jsTrim c6Str281).length = 281) ∧ ((jsTrim c6Str280).length = 280) ∧
    (jsTrim "   " = "") ∧
    ((createPost c6DB 1 c6OkReq 13 0).2.success = true) ∧
    (((createPost c6DB 1
        { content := some c6Str281, postType := some .recommend, image := none,
          city := some "Austin" } 10 0).2.success = false ∧
      (createPost c6DB 1
        { content := some c6Str281, postType := some .recommend, image := none,
          city := some "Austin" } 10 0).2.message
          = "Post content cannot exceed 280 characters" ∧
      (createPost c6DB 1
        { content := some c6Str281, postType := some .recommend, image := none,
          city := some "Austin" } 10 0).1 = c6DB) ∧
     ((createPost c6DB 1
        { content := some c6Str280, postType := some .recommend, image := none,
          city := some "Austin" } 11 0).2.success = true) ∧
     ((createPost c6DB 1
        { content := some "   ", postType := some .recommend, image := none,
          city := some "Austin" } 12 0).2.success = false ∧
      (createPost c6DB 1
        { content := some "   ", postType := some .recommend, image := none,
          city := some "Austin" } 12 0).2.message = "Post content is required" ∧
      (createPost c6DB 1
        { content := some "   ", postType := some .recommend, image := none,
          city := some "Austin" } 12 0).1 = c6DB) ∧
     (∃ s, c6OkReq.content = some s ∧
       1 ≤ (jsTrim s).length ∧ (jsTrim s).length ≤ 280)) :=
  ⟨by decide, by decide, by decide, by decide, by decide, by decide,
   c6_content_length_bounds c6DB 1 c6User .recommend "Austin" c6Str281 c6Str280 "   "
     c6OkReq 10 11 12 13 0 (by decide) (by decide) (by decide) (by decide)
     (by decide) (by decide) (by decide)⟩

def c5User : User :=
  { email := "a@b.co", firstName := "A", lastName := "B", city := "Austin",
    bio := "", isVerified := false, postsCount := 0, isActive := true }

def c5DB : DB := { users := [(1, c5User)], posts := [] }

def c5Req : CreatePostRequest :=
  { content := some "Great taco spot downtown!", postType := some .recommend,
    image := none, city := some "Austin" }

/-- C5 (code bug, evaluation).  Creating a post for user 1 (stored
`postsCount = 0`) succeeds, yet the author's `postsCount` is still `0`
afterwards — and still `0` after a second successful sequential create —
because mongoose sets `isNew` to `false` before `post('save')` hooks run,
so the hook's `if (this.isNew)` increment branch never executes.  A
subsequent like-toggle on the created post leaves `postsCount` unchanged as
well (that part of the claim holds). -/
theorem c5_create_post_does_not_increment_postsCount :
    ((createPost c5DB 1 c5Req 10 0).2.success = true) ∧
    ((findUser (createPost c5DB 1 c5Req 10 0).1 1).map User.postsCount = some 0) ∧
    ((createPost (createPost c5DB 1 c5Req 10 0).1 1 c5Req 11 1).2.success = true) ∧
    ((findUser (createPost (createPost c5DB 1 c5Req 10 0).1 1 c5Req 11 1).1 1).map
        User.postsCount = some 0) ∧
    ((findUser (togglePostLike (createPost c5DB 1 c5Req 10 0).1 10 1).1 1).map
        User.postsCount = some 0) := by
  decide

/-- Modelled from the spec: the order that `sortBy=mostLiked` is claimed to
produce — non-increasing like-count, ties broken by non-increasing creation
time.  (Second, spec-side definition, for comparison with the behaviour of
`getPostsFeed`, which delegates the ordering to MongoDB's array sort.) -/
def likeCountOrdered (l : List Post) : Prop :=
  l.Chain' (fun p q => q.likes.length < p.likes.length ∨
    (q.likes.length = p.likes.length ∧ q.createdAt ≤ p.createdAt))

def c4PostA : Post :=
  { content := "one like from a high id", postType := .recommend, image := none,
    author := 2, city := "Austin", likes := [100], dislikes := [], replies := [],
    isActive := true, createdAt := 5 }

def c4PostB : Post :=
  { content := "three likes from low ids", postType := .recommend, image := none,
    author := 3, city := "Austin", likes := [1, 2, 3], dislikes := [], replies := [],
    isActive := true, createdAt := 5 }

def c4DB : DB := { users := [], posts := [(1, c4PostA), (2, c4PostB)] }

/-- C4 (code bug, evaluation).  With `sortBy=mostLiked` the feed sorts on
the array field `likes` itself (`{ likes: -1 }`), which MongoDB resolves by
each array's largest element, not its length: the post with one like from
user 100 is returned before the post with three likes from users 1–3, so
the result is not in non-increasing like-count order. -/
theorem c4_mostLiked_not_sorted_by_count :
    ((getPostsFeed c4DB { sortBy := some .mostLiked }).posts
        = some [c4PostA, c4PostB]) ∧
    (c4PostA.likes.length < c4PostB.likes.length) ∧
    ¬ likeCountOrdered [c4PostA, c4PostB] := by
  refine ⟨by decide, by decide, ?_⟩
  intro hord
  rcases List.chain'_cons.mp hord with ⟨hrel, -⟩
  rcases hrel with hlt | ⟨heq, -⟩
  · simp [c4PostA, c4PostB] at hlt
  · simp [c4PostA, c4PostB] at heq

/-! ## Helper lemmas: feed sorting and membership -/

theorem mem_insertPostSorted {le : Post → Post → Bool} {p a : Post} {l : List Post} :
    a ∈ insertPostSorted le p l ↔ a = p ∨ a ∈ l := by
  induction l with
  | nil => simp [insertPostSorted]
  | cons q qs ih =>
    unfold insertPostSorted
    split
    · simp [or_comm, or_assoc, or_left_comm]
    · simp only [List.mem_cons, ih]
      tauto

theorem mem_sortPosts {le : Post → Post → Bool} {l : List Post} {a : Post} :
    a ∈ sortPosts le l ↔ a ∈ l := by
  induction l with
  | nil => simp [sortPosts]
  | cons p ps ih =>
    unfold sortPosts
    rw [mem_insertPostSorted, ih]
    simp

theorem getPostsFeed_posts (db : DB) (qp : PostQueryParams) :
    (getPostsFeed db qp).posts =
      some (sortPosts (feedLE (qp.sortBy.getD .newest))
        ((db.posts.map Prod.snd).filter (matchesFilter (buildFilter qp)))) := rfl

theorem mem_getPostsFeed {db : DB} {qp : PostQueryParams} {l : List Post}
    (hl : (getPostsFeed db qp).posts = some l) (a : Post) :
    a ∈ l ↔ (a ∈ db.posts.map Prod.snd ∧ matchesFilter (buildFilter qp) a = true) := by
  rw [getPostsFeed_posts] at hl
  injection hl with hl
  subst hl
  rw [mem_sortPosts, List.mem_filter]

/-- C7.  `getUserCityFeed` fails with the not-found result when the user does
not exist and with the deactivated (forbidden) result when the user is
inactive — in both cases returning no posts; otherwise, when the caller
supplies no city, it delegates to `getPostsFeed` with the user's stored city
as the city filter, so that (for a user whose stored city is a nonempty
trimmed string, querying with no other filters) a stored active post is in
the home feed exactly when its city equals the user's stored city. -/
theorem c7_home_feed_city_default (db : DB) (uid : Nat) (qp : PostQueryParams) :
    (findUser db uid = none →
      getUserCityFeed db uid qp =
        { success := false, message := "User not found",
          error := some "User does not exist" }) ∧
    (∀ user : User, findUser db uid = some user → user.isActive = false →
      getUserCityFeed db uid qp =
        { success := false, message := "Account is deactivated",
          error := some "Account status inactive" }) ∧
    (∀ user : User, findUser db uid = some user → user.isActive = true →
      qp.city = none →
      getUserCityFeed db uid qp = getPostsFeed db { qp with city := some user.city }) ∧
    (∀ user : User, findUser db uid = some user → user.isActive = true →
      jsTrim user.city = user.city → user.city ≠ "" →
      ∀ (pid : Nat) (p : Post), (pid, p) ∈ db.posts → p.isActive = true →
        ∀ l : List Post,
          (getUserCityFeed db uid
            { postType := none, author := none, city := none, sortBy := none,
              search := none }).posts = some l →
          (p ∈ l ↔ p.city = user.city)) := by
  refine ⟨?_, ?_, ?_, ?_⟩
  · intro h
    simp [getUserCityFeed, h]
  · intro user hfind hact
    simp [getUserCityFeed, hfind, hact]
  · intro user hfind hact hcity
    simp [getUserCityFeed, hfind, hact, hcity]
  · intro user hfind hact htrim hne pid p hmem hpact l hl
    have hdeleg : getUserCityFeed db uid
        { postType := none, author := none, city := none, sortBy := none,
          search := none } =
        getPostsFeed db
          { postType := none, author := none, city := some user.city,
            sortBy := none, search := none } := by
      simp [getUserCityFeed, hfind, hact]
    rw [hdeleg] at hl
    rw [mem_getPostsFeed hl p]
    have hfilter : buildFilter
        { postType := none, author := none, city := some user.city,
          sortBy := none, search := none } =
        { city := some user.city, postType := none, author := none,
          search := none } := by
      simp [buildFilter, htrim, hne]
    rw [hfilter]
    constructor
    · rintro ⟨-, hmatch⟩
      simp only [matchesFilter, hpact, Bool.true_and, Bool.and_true,
        Bool.and_eq_true, decide_eq_true_eq] at hmatch
      exact hmatch
    · intro hcity
      refine ⟨List.mem_map.mpr ⟨(pid, p), hmem, rfl⟩, ?_⟩
      simp [matchesFilter, hpact, hcity]

def c7UserB : User :=
  { email := "b@x.co", firstName := "B", lastName := "", city := "Austin",
    bio := "", isVerified := false, postsCount := 0, isActive := true }

def c7UserC : User :=
  { email := "c@x.co", firstName := "C", lastName := "", city := "Denver",
    bio := "", isVerified := false, postsCount := 0, isActive := true }

def c7Post : Post :=
  { content := "Great taco spot downtown!", postType := .recommend, image := none,
    author := 1, city := "Austin", likes := [], dislikes := [], replies := [],
    isActive := true, createdAt := 3 }

def c7DB : DB := { users := [(2, c7UserB), (3, c7UserC)], posts := [(10, c7Post)] }

/-- Witness for C7: the Austin user's home feed at a concrete store. -/
theorem c7_witness :
    (findUser c7DB 2 = none →
      getUserCityFeed c7DB 2
          { postType := none, author := none, city := none, sortBy := none,
            search := none } =
        { success := false, message := "User not found",
          error := some "User does not exist" }) ∧
    (∀ user : User, findUser c7DB 2 = some user → user.isActive = false →
      getUserCityFeed c7DB 2
          { postType := none, author := none, city := none, sortBy := none,
            search := none } =
        { success := false, message := "Account is deactivated",
          error := some "Account status inactive" }) ∧
    (∀ user : User, findUser c7DB 2 = some user → user.isActive = true →
      (none : Option String) = none →
      getUserCityFeed c7DB 2
          { postType := none, author := none, city := none, sortBy := none,
            search := none } =
        getPostsFeed c7DB
          { postType := none, author := none, city := some user.city,
            sortBy := none, search := none }) ∧
    (∀ user : User, findUser c7DB 2 = some user → user.isActive = true →
      jsTrim user.city = user.city → user.city ≠ "" →
      ∀ (pid : Nat) (p : Post), (pid, p) ∈ c7DB.posts → p.isActive = true →
        ∀ l : List Post,
          (getUserCityFeed c7DB 2
            { postType := none, author := none, city := none, sortBy := none,
              search := none }).posts = some l →
          (p ∈ l ↔ p.city = user.city)) := by
  have h := c7_home_feed_city_default c7DB 2
    { postType := none, author := none, city := none, sortBy := none,
      search := none }
  exact ⟨h.1, h.2.1, fun user hu ha _ => h.2.2.1 user hu ha rfl, h.2.2.2⟩

theorem buildFilter_city_blank {qp : PostQueryParams} {cf : String}
    (h : jsTrim cf = "") :
    buildFilter { qp with city := some cf } = buildFilter { qp with city := none } := by
  simp [buildFilter, h]

/-- C10.  For an active existing user whose stored city is the empty string
(as for a freshly signed-up account), the home feed with no caller-supplied
city — or with a caller-supplied city that is empty or whitespace-only —
applies no city constraint at all: its members are exactly the stored posts
matching the remaining (city-free) filter, whatever their city. -/
theorem c10_blank_city_means_no_city_filter (db : DB) (uid : Nat) (user : User)
    (qp : PostQueryParams)
    (hfind : findUser db uid = some user) (hact : user.isActive = true)
    (hcity : user.city = "")
    (hqp : qp.city = none ∨ ∃ s, qp.city = some s ∧ jsTrim s = "") :
    ∃ l, (getUserCityFeed db uid qp).posts = some l ∧
      ∀ p : Post, p ∈ l ↔
        (p ∈ db.posts.map Prod.snd ∧
         matchesFilter (buildFilter { qp with city := none }) p = true) := by
  obtain ⟨cf, hcf, hd⟩ : ∃ cf, jsTrim cf = "" ∧
      getUserCityFeed db uid qp = getPostsFeed db { qp with city := some cf } := by
    rcases hqp with hq | ⟨s, hq, hs⟩
    · exact ⟨"", rfl, by simp [getUserCityFeed, hfind, hact, hq, hcity]⟩
    · by_cases hse : s = ""
      · subst hse
        exact ⟨"", rfl, by simp [getUserCityFeed, hfind, hact, hq, hcity]⟩
      · exact ⟨s, hs, by simp [getUserCityFeed, hfind, hact, hq, hse]⟩
  have hl : (getUserCityFeed db uid qp).posts =
      some (sortPosts (feedLE (qp.sortBy.getD .newest))
        ((db.posts.map Prod.snd).filter
          (matchesFilter (buildFilter { qp with city := some cf })))) := by
    rw [hd]
    exact getPostsFeed_posts db _
  refine ⟨_, hl, ?_⟩
  intro p
  rw [hd] at hl
  rw [mem_getPostsFeed hl p, buildFilter_city_blank hcf]

def c10User : User :=
  { email := "n@x.co", firstName := "", lastName := "", city := "",
    bio := "", isVerified := false, postsCount := 0, isActive := true }

def c10PostAustin : Post :=
  { content := "from Austin", postType := .update, image := none,
    author := 2, city := "Austin", likes := [], dislikes := [], replies := [],
    isActive := true, createdAt := 1 }

def c10PostDenver : Post :=
  { content := "from Denver", postType := .update, image := none,
    author := 3, city := "Denver", likes := [], dislikes := [], replies := [],
    isActive := true, createdAt := 2 }

def c10DB : DB :=
  { users := [(1, c10User)], posts := [(1, c10PostAustin), (2, c10PostDenver)] }

/-- Witness for C10: a blank-city user's home feed at a concrete two-city
store, with no caller-supplied city. -/
theorem c10_witness :
    (findUser c10DB 1 = some c10User) ∧ (c10User.isActive = true) ∧
    (c10User.city = "") ∧
    (∃ l, (getUserCityFeed c10DB 1
        { postType := none, author := none, city := none, sortBy := none,
          search := none }).posts = some l ∧
      ∀ p : Post, p ∈ l ↔
        (p ∈ c10DB.posts.map Prod.snd ∧
         matchesFilter (buildFilter
           { postType := none, author := none, city := none, sortBy := none,
             search := none }) p = true)) :=
  ⟨by decide, by decide, by decide,
   c10_blank_city_means_no_city_filter c10DB 1 c10User
     { postType := none, author := none, city := none, sortBy := none,
       search := none }
     (by decide) (by decide) (by decide) (Or.inl rfl)⟩
